import Mathlib

/-!
Verification of the SteinMax Vision access-control system
(plate-based gate access: rule store, decision evaluation, edge sync).

Strings coming from the TypeScript sources are modelled as lists of
character code points (`List Nat`); the functions below are shallow
embeddings of the corresponding source functions.
-/

set_option maxHeartbeats 1000000

namespace Vision

/-- Code-point model of `JavaScript toUpperCase` on the ASCII fragment:
lowercase letters (97..122) map to uppercase (65..90), everything else
is unchanged. -/
def jsToUpperChar (c : Nat) : Nat :=
  if 97 ≤ c ∧ c ≤ 122 then c - 32 else c

/-- Character class of the regex `[A-Z0-9]` used in
`cloud/portal/src/lib/utils.ts`. -/
def isUpperAlnum (c : Nat) : Bool :=
  (65 ≤ c && c ≤ 90) || (48 ≤ c && c ≤ 57)

/-- Embedding of `formatPlateNumber` from
`src/steinmax-vision-2/cloud/portal/src/lib/utils.ts`:
`plate.toUpperCase().replace(/[^A-Z0-9]/g, "")` — uppercase the string,
then delete every character outside `A-Z0-9`. -/
def formatPlateNumber (s : List Nat) : List Nat :=
  (s.map jsToUpperChar).filter isUpperAlnum

/-- ASCII letter (either case) or digit, as the spec words say:
"uppercase, strip non-alphanumeric". -/
def isAsciiLetterOrDigit (c : Nat) : Bool :=
  (65 ≤ c && c ≤ 90) || (97 ≤ c && c ≤ 122) || (48 ≤ c && c ≤ 57)

/-- Normalization written from the spec words (uppercase the input, then
delete every character that is not an ASCII letter or digit), used to
compare against the implementation `formatPlateNumber`. -/
def specNormalize (s : List Nat) : List Nat :=
  (s.map jsToUpperChar).filter isAsciiLetterOrDigit

/-- Embedding of the plate a rule is stored with: in `handleSubmit`
(`src/unnamed/part_002`) the form field is uppercased on change and
`formatPlateNumber` is applied on submit before `api.createPlate` /
`api.updatePlate`. -/
def storedPlateNumber (raw : List Nat) : List Nat :=
  formatPlateNumber (raw.map jsToUpperChar)

/-- Modelled from the spec: the Decision Evaluator normalization step
(the backend evaluator is not part of the portal sources); the spec
requires it to "exactly match the normalization used when rules were
stored", i.e. `formatPlateNumber`. -/
def normalizePlate (s : List Nat) : List Nat :=
  formatPlateNumber s

theorem jsToUpperChar_idem (c : Nat) :
    jsToUpperChar (jsToUpperChar c) = jsToUpperChar c := by
  unfold jsToUpperChar
  split
  · split <;> omega
  · rfl

theorem isUpperAlnum_eq_of_not_lower {d : Nat} (hd : ¬(97 ≤ d ∧ d ≤ 122)) :
    isUpperAlnum d = isAsciiLetterOrDigit d := by
  unfold isUpperAlnum isAsciiLetterOrDigit
  rw [Bool.eq_iff_iff]
  simp only [Bool.or_eq_true, Bool.and_eq_true, decide_eq_true_eq]
  omega

theorem isUpperAlnum_jsToUpperChar (c : Nat) :
    isUpperAlnum (jsToUpperChar c) = isAsciiLetterOrDigit (jsToUpperChar c) := by
  apply isUpperAlnum_eq_of_not_lower
  unfold jsToUpperChar
  split <;> omega

theorem jsToUpperChar_of_isUpperAlnum {c : Nat} (h : isUpperAlnum c = true) :
    jsToUpperChar c = c := by
  unfold isUpperAlnum at h
  simp only [Bool.or_eq_true, Bool.and_eq_true, decide_eq_true_eq] at h
  unfold jsToUpperChar
  split <;> omega

theorem formatPlateNumber_map_upper (s : List Nat) :
    formatPlateNumber (s.map jsToUpperChar) = formatPlateNumber s := by
  unfold formatPlateNumber
  rw [List.map_map]
  congr 1
  apply List.map_congr_left
  intro a _
  exact jsToUpperChar_idem a

/-- Claim C5: the plate normalization maps every input to the string
obtained by uppercasing it and deleting every character that is not an
ASCII letter or digit, and the identical function is applied at storage
time (`handleSubmit` via `formatPlateNumber`) and at evaluation time
(`normalizePlate`), so the stored plate of a rule and a detection of the
same raw plate text compare equal. -/
theorem plate_normalization_agrees (raw : List Nat) :
    storedPlateNumber raw = normalizePlate raw ∧
      normalizePlate raw = specNormalize raw := by
  constructor
  · exact formatPlateNumber_map_upper raw
  · unfold normalizePlate formatPlateNumber specNormalize
    apply List.filter_congr
    intro c hc
    rw [List.mem_map] at hc
    obtain ⟨a, _, rfl⟩ := hc
    exact isUpperAlnum_jsToUpperChar a

/-- Claim C9: `formatPlateNumber` produces only uppercase ASCII letters
and digits, and is idempotent — re-normalizing an already stored plate
number is a no-op. -/
theorem formatPlateNumber_image_idem (s : List Nat) :
    (∀ c ∈ formatPlateNumber s, isUpperAlnum c = true) ∧
      formatPlateNumber (formatPlateNumber s) = formatPlateNumber s := by
  have hmem : ∀ c ∈ formatPlateNumber s, isUpperAlnum c = true := by
    intro c hc
    exact (List.mem_filter.mp hc).2
  refine ⟨hmem, ?_⟩
  have hmap : List.map jsToUpperChar (formatPlateNumber s) = formatPlateNumber s := by
    conv_rhs => rw [← List.map_id (formatPlateNumber s)]
    apply List.map_congr_left
    intro a ha
    exact jsToUpperChar_of_isUpperAlnum (hmem a ha)
  show List.filter isUpperAlnum (List.map jsToUpperChar (formatPlateNumber s)) =
    formatPlateNumber s
  rw [hmap, List.filter_eq_self]
  exact hmem

/-! ### Rule store data model, from the database schema (src/unnamed/part_001) -/

/-- The `list_type` column of the `plates` table:
one of allow, deny, visitor, vendor. -/
inductive ListType
  | allow
  | deny
  | visitor
  | vendor
deriving DecidableEq, Repr

/-- The `schedule` JSONB column of the `plates` table: a set of weekday
codes plus a daily start and end time of day (modelled in minutes). -/
structure Schedule where
  days : List Nat
  startTod : Nat
  endTod : Nat
deriving DecidableEq, Repr

/-- One row of the `plates` table (an access rule): identifier, owning
property, normalized plate number, list category, optional validity
window and optional recurring schedule. Identifiers and timestamps are
modelled as naturals. -/
structure PlateRow where
  id : Nat
  propertyId : Nat
  plateNumber : List Nat
  listType : ListType
  startsAt : Option Nat
  expiresAt : Option Nat
  schedule : Option Schedule
deriving DecidableEq, Repr

/-- One row of the `events` table (a Decision Record): device, property,
detection data, decision, reason and the matched rule identifier, which
the schema declares as `REFERENCES plates(id) ON DELETE SET NULL`. -/
structure EventRow where
  id : Nat
  deviceId : Nat
  propertyId : Nat
  plateNumber : List Nat
  plateConfidence : Nat
  decision : String
  decisionReason : String
  matchedPlateId : Option Nat
deriving DecidableEq, Repr

/-- Cloud database state relevant to rules and decision records. -/
structure Db where
  plates : List PlateRow
  events : List EventRow
deriving DecidableEq, Repr

/-- Embedding of an INSERT into `plates`: the schema constraint
`UNIQUE(property_id, plate_number)` (src/unnamed/part_001, comment
"Prevent duplicate plates per property") makes the insert fail whenever
any existing row of the property already carries the same plate number,
whatever its category; the primary key likewise rejects a duplicate id.
`none` models the constraint violation. -/
def insertPlate (store : List PlateRow) (r : PlateRow) : Option (List PlateRow) :=
  if store.any (fun p =>
      decide (p.id = r.id) ||
      (decide (p.propertyId = r.propertyId) && decide (p.plateNumber = r.plateNumber))) then
    none
  else
    some (store ++ [r])

/-- One rule creation: a creation rejected by the unique constraint
leaves the store unchanged. -/
def insertStep (store : List PlateRow) (r : PlateRow) : List PlateRow :=
  match insertPlate store r with
  | some s => s
  | none => store

/-- Runs a sequence of rule creations against an initially empty store. -/
def applyInserts (rs : List PlateRow) : List PlateRow :=
  rs.foldl insertStep []

/-- Two rows share a (property, plate) key. -/
def sameKey (a b : PlateRow) : Prop :=
  a.propertyId = b.propertyId ∧ a.plateNumber = b.plateNumber

instance : DecidableRel sameKey := fun a b => by
  unfold sameKey
  infer_instance

/-- The SET NULL action of the foreign key
`events.matched_plate_id REFERENCES plates(id) ON DELETE SET NULL`
applied to one event row. -/
def clearMatched (pid : Nat) (e : EventRow) : EventRow :=
  if e.matchedPlateId = some pid then { e with matchedPlateId := none } else e

/-- Embedding of `DELETE FROM plates WHERE id = pid`: the row disappears
and, by the referential action declared in the schema, every event whose
`matched_plate_id` pointed at it has that column set to NULL. -/
def deletePlate (db : Db) (pid : Nat) : Db :=
  { plates := db.plates.filter (fun p => decide (p.id ≠ pid)),
    events := db.events.map (clearMatched pid) }

/-! ### Decision Evaluator, modelled from the spec (section 4.1): the
backend evaluator itself is not among the repository sources (only its
README description and the database schema are), so the algorithm below
follows the spec text step by step. -/

/-- An evaluation instant: absolute timestamp, weekday code and minute
of day, as used by the validity window and the recurring schedule. -/
structure Instant where
  ts : Nat
  weekday : Nat
  minuteOfDay : Nat
deriving DecidableEq, Repr

/-- Modelled from the spec: the validity window check of the missing
Decision Evaluator — `starts_at` and `expires_at` are inclusive bounds,
an absent bound is unbounded. -/
def inWindow (r : PlateRow) (i : Instant) : Bool :=
  (match r.startsAt with
   | none => true
   | some s => decide (s ≤ i.ts)) &&
  (match r.expiresAt with
   | none => true
   | some e => decide (i.ts ≤ e))

/-- Modelled from the spec: the recurring schedule check of the missing
Decision Evaluator — weekday must be in the allowed set and the time of
day must lie in the half-open interval from start to end; an absent
schedule always passes. -/
def inSchedule (r : PlateRow) (i : Instant) : Bool :=
  match r.schedule with
  | none => true
  | some sch =>
      decide (i.weekday ∈ sch.days) &&
      decide (sch.startTod ≤ i.minuteOfDay) &&
      decide (i.minuteOfDay < sch.endTod)

/-- The rule matches the given normalized plate. -/
def matchesPlate (p : List Nat) (r : PlateRow) : Bool :=
  decide (r.plateNumber = p)

/-- Modelled from the spec: steps 2 and 3 of the missing Decision
Evaluator — keep the rules whose plate equals the normalized input and
whose window and schedule include the evaluation instant. -/
def candidatesFor (p : List Nat) (i : Instant) (snap : List PlateRow) : List PlateRow :=
  snap.filter (fun r => matchesPlate p r && inWindow r i && inSchedule r i)

/-- The decision outcomes of the evaluator. -/
inductive Decision
  | granted
  | denied
  | unknown
deriving DecidableEq, Repr

/-- Evaluator output: decision, human-readable reason, matched rule id. -/
structure EvalResult where
  decision : Decision
  reason : String
  matchedRuleId : Option Nat
deriving DecidableEq, Repr

/-- Lowest rule id of a candidate list (ties on matched rules are broken
by lowest rule id per the spec). -/
def minRuleId (l : List PlateRow) : Option Nat :=
  match l.map PlateRow.id with
  | [] => none
  | x :: xs => some (xs.foldl Nat.min x)

/-- The surviving candidates of one category. -/
def byType (t : ListType) (cands : List PlateRow) : List PlateRow :=
  cands.filter (fun r => decide (r.listType = t))

/-- Modelled from the spec: steps 4 to 6 of the missing Decision
Evaluator — no candidate gives unknown; an explicit deny wins over every
other category; otherwise grant with category precedence allow, then
vendor, then visitor. -/
def pickDecision (cands : List PlateRow) : EvalResult :=
  if cands.isEmpty = true then
    ⟨Decision.unknown, "no matching rule", none⟩
  else if (byType ListType.deny cands).isEmpty = false then
    ⟨Decision.denied, "matched deny list", minRuleId (byType ListType.deny cands)⟩
  else if (byType ListType.allow cands).isEmpty = false then
    ⟨Decision.granted, "matched allow list", minRuleId (byType ListType.allow cands)⟩
  else if (byType ListType.vendor cands).isEmpty = false then
    ⟨Decision.granted, "matched vendor list", minRuleId (byType ListType.vendor cands)⟩
  else
    ⟨Decision.granted, "matched visitor list", minRuleId cands⟩

/-- Modelled from the spec: steps 1 to 6 of the missing Decision
Evaluator plus the unreadable-plate edge case — normalize the input and
decide from the surviving candidates; an input that normalizes to the
empty string is unreadable. -/
def evalMatch (raw : List Nat) (snap : List PlateRow) (i : Instant) : EvalResult :=
  if normalizePlate raw = [] then
    ⟨Decision.unknown, "unreadable plate", none⟩
  else
    pickDecision (candidatesFor (normalizePlate raw) i snap)

/-- Modelled from the spec: the full missing Decision Evaluator — step 7
overrides the computed outcome to unknown whenever the raw detection
confidence is below the configured threshold. -/
def evaluate (raw : List Nat) (snap : List PlateRow) (i : Instant)
    (confidence threshold : Nat) : EvalResult :=
  if confidence < threshold then
    ⟨Decision.unknown, "confidence below threshold", none⟩
  else
    evalMatch raw snap i

/-! ### Snapshot Hasher, modelled from the spec (section 4.2): the hash
endpoint `GET /api/v1/sync/plates/hash` is only declared in the README,
its implementation is not among the sources. -/

/-- Rule ordering by rule id, the canonicalization order of the hasher. -/
def idLe (a b : PlateRow) : Prop := a.id ≤ b.id

instance : DecidableRel idLe := fun a b => Nat.decLe a.id b.id

instance : IsTotal PlateRow idLe := ⟨fun a b => Nat.le_total a.id b.id⟩

instance : IsTrans PlateRow idLe := ⟨fun _ _ _ => Nat.le_trans⟩

/-- Canonicalize a snapshot by sorting its rules by rule id. -/
def sortById (l : List PlateRow) : List PlateRow :=
  List.insertionSort idLe l

def encodeListType : ListType → Nat
  | ListType.allow => 0
  | ListType.deny => 1
  | ListType.visitor => 2
  | ListType.vendor => 3

def encodeOptNat : Option Nat → List Nat
  | none => [0]
  | some n => [1, n]

def encodeSchedule : Option Schedule → List Nat
  | none => [0]
  | some s => [1, s.days.length] ++ s.days ++ [s.startTod, s.endTod]

/-- Serialization of one rule for hashing. -/
def encodeRule (r : PlateRow) : List Nat :=
  [r.id, r.propertyId, r.plateNumber.length] ++ r.plateNumber ++
    [encodeListType r.listType] ++ encodeOptNat r.startsAt ++
    encodeOptNat r.expiresAt ++ encodeSchedule r.schedule

/-- One step of a 64-bit polynomial rolling hash. -/
def hashChain (h c : Nat) : Nat := (h * 131 + c) % (2 ^ 64)

def hashCodes (l : List Nat) : Nat := l.foldl hashChain 5381

/-- Modelled from the spec: the missing Snapshot Hasher — canonicalize
the rule ordering (sort by rule id), serialize, and hash the result into
a compact fingerprint. -/
def fingerprint (rules : List PlateRow) : Nat :=
  hashCodes (((sortById rules).map encodeRule).flatten)

/-! ### Decision Pipeline, modelled from the spec (section 4.5): the
webhook handler is only described in the README, its implementation is
not among the sources. -/

/-- A Detection Event: device, upstream delivery identifier, observed
plate text, recognition confidence, timestamp. -/
structure DetectionEvent where
  deviceId : Nat
  upstreamEventId : Nat
  plateText : List Nat
  confidence : Nat
  instant : Instant
deriving DecidableEq, Repr

/-- A persisted Decision Record of the pipeline. -/
structure DecisionRecord where
  deviceId : Nat
  upstreamEventId : Nat
  decision : Decision
  reason : String
  matchedRuleId : Option Nat
deriving DecidableEq, Repr

/-- An actuation request sent to the gate-control collaborator. -/
structure ActuationRequest where
  deviceId : Nat
  upstreamEventId : Nat
  matchedRuleId : Option Nat
deriving DecidableEq, Repr

/-- Pipeline state: seen dedup keys, persisted records, actuations. -/
structure PipelineState where
  dedupKeys : List (Nat × Nat)
  records : List DecisionRecord
  actuations : List ActuationRequest
deriving DecidableEq, Repr

/-- The dedup key of a detection: device id plus upstream event id. -/
def dedupKey (ev : DetectionEvent) : Nat × Nat :=
  (ev.deviceId, ev.upstreamEventId)

/-- Modelled from the spec: the missing Decision Pipeline — a duplicate
delivery (dedup key already seen) is dropped before the Evaluator is
invoked; otherwise evaluate, persist exactly one Decision Record, and
emit an actuation request only on a granted decision. -/
def processDetection (snap : List PlateRow) (threshold : Nat)
    (st : PipelineState) (ev : DetectionEvent) : PipelineState :=
  if dedupKey ev ∈ st.dedupKeys then
    st
  else
    { dedupKeys := dedupKey ev :: st.dedupKeys,
      records :=
        { deviceId := ev.deviceId,
          upstreamEventId := ev.upstreamEventId,
          decision := (evaluate ev.plateText snap ev.instant ev.confidence threshold).decision,
          reason := (evaluate ev.plateText snap ev.instant ev.confidence threshold).reason,
          matchedRuleId := (evaluate ev.plateText snap ev.instant ev.confidence threshold).matchedRuleId }
          :: st.records,
      actuations :=
        if (evaluate ev.plateText snap ev.instant ev.confidence threshold).decision = Decision.granted then
          { deviceId := ev.deviceId,
            upstreamEventId := ev.upstreamEventId,
            matchedRuleId := (evaluate ev.plateText snap ev.instant ev.confidence threshold).matchedRuleId }
            :: st.actuations
        else
          st.actuations }

/-- Number of persisted Decision Records carrying a given dedup key. -/
def recordsFor (st : PipelineState) (k : Nat × Nat) : Nat :=
  (st.records.filter (fun r => decide ((r.deviceId, r.upstreamEventId) = k))).length

/-- Number of actuation requests carrying a given dedup key. -/
def actuationsFor (st : PipelineState) (k : Nat × Nat) : Nat :=
  (st.actuations.filter (fun a => decide ((a.deviceId, a.upstreamEventId) = k))).length

/-! ### Concrete sample data used by counterexamples and witnesses -/

/-- Code points of the plate text ABC1234. -/
def plateABC : List Nat := [65, 66, 67, 49, 50, 51, 52]

/-- Code points of the plate text XYZ9999. -/
def plateXYZ : List Nat := [88, 89, 90, 57, 57, 57, 57]

/-- An allow rule for plate ABC1234 on property 22. -/
def rowAllowABC : PlateRow :=
  ⟨1, 22, plateABC, ListType.allow, none, none, none⟩

/-- A deny rule for plate ABC1234 on property 22. -/
def rowDenyABC : PlateRow :=
  ⟨2, 22, plateABC, ListType.deny, none, none, none⟩

/-- A decision record whose matched rule is the rule with id 1. -/
def eventABC : EventRow :=
  ⟨7, 33, 22, plateABC, 95, "granted", "matched allow list", some 1⟩

/-- A database with one allow rule and one decision record matching it. -/
def db0 : Db := ⟨[rowAllowABC], [eventABC]⟩

/-! ### Claims C3 and C4: rule store invariants -/

theorem insertStep_pairwise (store : List PlateRow) (r : PlateRow)
    (h : store.Pairwise (fun a b => ¬ sameKey a b)) :
    (insertStep store r).Pairwise (fun a b => ¬ sameKey a b) := by
  unfold insertStep insertPlate
  by_cases hany : store.any (fun p =>
      decide (p.id = r.id) ||
      (decide (p.propertyId = r.propertyId) && decide (p.plateNumber = r.plateNumber))) = true
  · rw [if_pos hany]
    exact h
  · rw [if_neg hany]
    rw [List.pairwise_append]
    refine ⟨h, List.pairwise_singleton _ _, ?_⟩
    intro a ha b hb
    rw [List.mem_singleton] at hb
    subst hb
    simp only [Bool.not_eq_true, List.any_eq_false] at hany
    have hf := hany a ha
    simp only [Bool.or_eq_false_iff, Bool.and_eq_false_iff, decide_eq_false_iff_not] at hf
    unfold sameKey
    intro hk
    rcases hf.2 with h1 | h1
    · exact h1 hk.1
    · exact h1 hk.2

theorem foldl_insertStep_pairwise (rs : List PlateRow) :
    ∀ store : List PlateRow, store.Pairwise (fun a b => ¬ sameKey a b) →
      (rs.foldl insertStep store).Pairwise (fun a b => ¬ sameKey a b) := by
  induction rs with
  | nil => intro store h; exact h
  | cons r rest ih =>
      intro store h
      exact ih (insertStep store r) (insertStep_pairwise store r h)

/-- Claim C3, counterexample: the schema constraint
`UNIQUE(property_id, plate_number)` rejects the very creation sequence
the claim requires — after storing plate ABC1234 under `allow`, creating
the same plate for the same property under `deny` fails, so the store
never holds both rows. -/
theorem same_plate_two_categories_counterexample :
    rowAllowABC.propertyId = rowDenyABC.propertyId ∧
    rowAllowABC.plateNumber = rowDenyABC.plateNumber ∧
    rowAllowABC.listType ≠ rowDenyABC.listType ∧
    insertPlate [rowAllowABC] rowDenyABC = none ∧
    applyInserts [rowAllowABC, rowDenyABC] = [rowAllowABC] := by
  refine ⟨rfl, rfl, by decide, by decide, by decide⟩

/-- Claim C3 amended: per-(property, plate) uniqueness IS enforced by the
rule store — whatever sequence of rule creations is applied, the
resulting store never contains two rules sharing a property and a
normalized plate number, so a plate cannot appear under two categories
for one property. -/
theorem rule_store_unique_key (rs : List PlateRow) :
    (applyInserts rs).Pairwise (fun a b => ¬ sameKey a b) :=
  foldl_insertStep_pairwise rs [] (List.Pairwise.nil)

/-- Claim C4, counterexample: decision records are not immutable —
deleting the matched rule rewrites the record. In `db0` the only event
carries `matched_plate_id = 1`; deleting plate 1 sets that field to NULL
via the `ON DELETE SET NULL` referential action, changing the stored
record. -/
theorem decision_record_immutable_counterexample :
    db0.events.map EventRow.matchedPlateId = [some 1] ∧
    (deletePlate db0 1).events.map EventRow.matchedPlateId = [none] ∧
    (deletePlate db0 1).events ≠ db0.events := by
  refine ⟨by decide, by decide, by decide⟩

/-- Claim C4 amended: deleting a rule never deletes a decision record
and never changes any of its fields except the matched rule identifier,
which is set to NULL exactly when it pointed at the deleted rule and is
kept otherwise. -/
theorem decision_record_frame (db : Db) (pid : Nat) :
    (deletePlate db pid).events.length = db.events.length ∧
    ∀ e ∈ db.events,
      clearMatched pid e ∈ (deletePlate db pid).events ∧
      (clearMatched pid e).id = e.id ∧
      (clearMatched pid e).deviceId = e.deviceId ∧
      (clearMatched pid e).propertyId = e.propertyId ∧
      (clearMatched pid e).plateNumber = e.plateNumber ∧
      (clearMatched pid e).plateConfidence = e.plateConfidence ∧
      (clearMatched pid e).decision = e.decision ∧
      (clearMatched pid e).decisionReason = e.decisionReason ∧
      (clearMatched pid e).matchedPlateId =
        (if e.matchedPlateId = some pid then none else e.matchedPlateId) := by
  constructor
  · unfold deletePlate
    exact List.length_map db.events (clearMatched pid)
  · intro e he
    have hmem : clearMatched pid e ∈ (deletePlate db pid).events :=
      List.mem_map_of_mem (clearMatched pid) he
    unfold clearMatched
    by_cases hm : e.matchedPlateId = some pid
    · rw [if_pos hm, if_pos hm]
      unfold clearMatched at hmem
      rw [if_pos hm] at hmem
      exact ⟨hmem, rfl, rfl, rfl, rfl, rfl, rfl, rfl, rfl⟩
    · rw [if_neg hm, if_neg hm]
      unfold clearMatched at hmem
      rw [if_neg hm] at hmem
      exact ⟨hmem, rfl, rfl, rfl, rfl, rfl, rfl, rfl, rfl⟩

/-- Claim C4 amended, witness at the concrete database `db0`. -/
theorem decision_record_frame_witness :
    eventABC ∈ db0.events ∧
    ((deletePlate db0 1).events.length = db0.events.length ∧
      (clearMatched 1 eventABC ∈ (deletePlate db0 1).events ∧
        (clearMatched 1 eventABC).id = eventABC.id ∧
        (clearMatched 1 eventABC).deviceId = eventABC.deviceId ∧
        (clearMatched 1 eventABC).propertyId = eventABC.propertyId ∧
        (clearMatched 1 eventABC).plateNumber = eventABC.plateNumber ∧
        (clearMatched 1 eventABC).plateConfidence = eventABC.plateConfidence ∧
        (clearMatched 1 eventABC).decision = eventABC.decision ∧
        (clearMatched 1 eventABC).decisionReason = eventABC.decisionReason ∧
        (clearMatched 1 eventABC).matchedPlateId =
          (if eventABC.matchedPlateId = some 1 then none else eventABC.matchedPlateId))) :=
  ⟨by decide,
   (decision_record_frame db0 1).1,
   (decision_record_frame db0 1).2 eventABC (by decide)⟩

/-! ### Claims C1, C2 and C7: Decision Evaluator -/

/-- An expired visitor rule for plate XYZ9999 (Scenario C). -/
def rowVisitorXYZ : PlateRow :=
  ⟨3, 22, plateXYZ, ListType.visitor, none, some 100, none⟩

/-- A sample evaluation instant. -/
def inst0 : Instant := ⟨1000, 3, 600⟩

/-- An evaluation instant after the expiry of `rowVisitorXYZ`. -/
def instLate : Instant := ⟨200, 3, 600⟩

theorem isEmpty_false_of_mem {a : PlateRow} {l : List PlateRow} (h : a ∈ l) :
    l.isEmpty = false := by
  cases l with
  | nil => cases h
  | cons x xs => rfl

/-- Claim C2: a detection whose raw confidence is below the threshold is
always decided unknown with reason "confidence below threshold",
whatever the snapshot — in particular even when an allow rule matches,
so a below-threshold detection never yields granted. -/
theorem low_confidence_unknown (raw : List Nat) (snap : List PlateRow)
    (i : Instant) (conf th : Nat) (h : conf < th) :
    evaluate raw snap i conf th =
      ⟨Decision.unknown, "confidence below threshold", none⟩ := by
  unfold evaluate
  rw [if_pos h]

/-- Claim C2, witness: confidence 40 against threshold 80 with a
matching allow rule still decides unknown. -/
theorem low_confidence_unknown_witness :
    40 < 80 ∧
    evaluate plateABC [rowAllowABC] inst0 40 80 =
      ⟨Decision.unknown, "confidence below threshold", none⟩ :=
  ⟨by decide, low_confidence_unknown plateABC [rowAllowABC] inst0 40 80 (by decide)⟩

/-- Claim C1: whenever some rule of the snapshot matches the normalized
plate, survives the window and schedule filter and has category deny,
the evaluator decides denied with reason "matched deny list" — whatever
other allow, visitor or vendor rules also match (the confidence is at
threshold or above and the plate is readable, otherwise the unknown
overrides of the evaluator apply). -/
theorem deny_overrides (raw : List Nat) (snap : List PlateRow) (i : Instant)
    (conf th : Nat) (r : PlateRow)
    (hth : th ≤ conf)
    (hp : normalizePlate raw ≠ [])
    (hr : r ∈ snap)
    (hm : matchesPlate (normalizePlate raw) r = true)
    (hw : inWindow r i = true)
    (hs : inSchedule r i = true)
    (hd : r.listType = ListType.deny) :
    (evaluate raw snap i conf th).decision = Decision.denied ∧
    (evaluate raw snap i conf th).reason = "matched deny list" := by
  have hnlt : ¬ conf < th := Nat.not_lt.mpr hth
  unfold evaluate
  rw [if_neg hnlt]
  unfold evalMatch
  rw [if_neg hp]
  have hcand : r ∈ candidatesFor (normalizePlate raw) i snap := by
    unfold candidatesFor
    rw [List.mem_filter]
    refine ⟨hr, ?_⟩
    rw [hm, hw, hs]
    rfl
  have hdeny : r ∈ byType ListType.deny (candidatesFor (normalizePlate raw) i snap) := by
    unfold byType
    rw [List.mem_filter]
    refine ⟨hcand, ?_⟩
    rw [hd]
    rfl
  unfold pickDecision
  have hne := isEmpty_false_of_mem hcand
  have hned := isEmpty_false_of_mem hdeny
  rw [if_neg (by rw [hne]; exact Bool.false_ne_true)]
  rw [if_pos hned]
  exact ⟨rfl, rfl⟩

/-- Claim C1, witness: Scenario B — plate ABC1234 present under both
allow and deny, confidence 95 against threshold 80, decides denied with
reason "matched deny list". -/
theorem deny_overrides_witness :
    (80 ≤ 95 ∧ normalizePlate plateABC ≠ [] ∧
      rowDenyABC ∈ [rowAllowABC, rowDenyABC] ∧
      matchesPlate (normalizePlate plateABC) rowDenyABC = true ∧
      inWindow rowDenyABC inst0 = true ∧
      inSchedule rowDenyABC inst0 = true ∧
      rowDenyABC.listType = ListType.deny) ∧
    (evaluate plateABC [rowAllowABC, rowDenyABC] inst0 95 80).decision = Decision.denied ∧
    (evaluate plateABC [rowAllowABC, rowDenyABC] inst0 95 80).reason = "matched deny list" :=
  ⟨⟨by decide, by decide, by decide, by decide, by decide, by decide, rfl⟩,
   deny_overrides plateABC [rowAllowABC, rowDenyABC] inst0 95 80 rowDenyABC
     (by decide) (by decide) (by decide) (by decide) (by decide) (by decide) rfl⟩

/-- Claim C7: a rule whose validity window or recurring schedule
excludes the evaluation instant never contributes — for any snapshot the
evaluator returns the same outcome with that rule removed, at every
input plate, confidence and threshold. -/
theorem excluded_rule_no_contribution (raw : List Nat) (xs ys : List PlateRow)
    (r : PlateRow) (i : Instant) (conf th : Nat)
    (h : inWindow r i = false ∨ inSchedule r i = false) :
    evaluate raw (xs ++ r :: ys) i conf th = evaluate raw (xs ++ ys) i conf th := by
  have hpred : ∀ p : List Nat,
      (matchesPlate p r && inWindow r i && inSchedule r i) = false := by
    intro p
    rcases h with h1 | h1
    · rw [h1]
      simp
    · rw [h1]
      simp
  have hc : ∀ p : List Nat,
      candidatesFor p i (xs ++ r :: ys) = candidatesFor p i (xs ++ ys) := by
    intro p
    unfold candidatesFor
    have hnp : ¬ (fun rr => matchesPlate p rr && inWindow rr i && inSchedule rr i) r = true := by
      show ¬ (matchesPlate p r && inWindow r i && inSchedule r i) = true
      rw [hpred p]
      exact Bool.false_ne_true
    rw [List.filter_append, List.filter_append]
    congr 1
    exact List.filter_cons_of_neg hnp
  unfold evaluate evalMatch
  rw [hc]

/-- Claim C7, witness: Scenario C — the expired visitor rule for plate
XYZ9999 contributes nothing: the outcome equals the outcome on the empty
snapshot (unknown, "no matching rule"). -/
theorem excluded_rule_no_contribution_witness :
    (inWindow rowVisitorXYZ instLate = false ∨ inSchedule rowVisitorXYZ instLate = false) ∧
    evaluate plateXYZ ([] ++ rowVisitorXYZ :: []) instLate 95 80 =
      evaluate plateXYZ ([] ++ []) instLate 95 80 :=
  ⟨Or.inl (by decide),
   excluded_rule_no_contribution plateXYZ [] [] rowVisitorXYZ instLate 95 80
     (Or.inl (by decide))⟩

/-! ### Claim C6: Snapshot Hasher canonicalization -/

theorem sorted_nodup_eq :
    ∀ {l1 l2 : List PlateRow}, l1.Perm l2 →
      List.Sorted idLe l1 → List.Sorted idLe l2 →
      (l1.map PlateRow.id).Nodup → l1 = l2 := by
  intro l1
  induction l1 with
  | nil =>
      intro l2 hp _ _ _
      exact (List.Perm.eq_nil hp.symm).symm
  | cons a t1 ih =>
      intro l2 hp hs1 hs2 hnd
      cases l2 with
      | nil =>
          exact absurd (List.Perm.eq_nil hp) (by simp)
      | cons b t2 =>
          have hs1c := List.sorted_cons.mp hs1
          have hs2c := List.sorted_cons.mp hs2
          rw [List.map_cons] at hnd
          have hndc := List.nodup_cons.mp hnd
          have hab : a = b := by
            have hain : a ∈ b :: t2 := hp.mem_iff.mp (List.mem_cons_self a t1)
            rcases List.mem_cons.mp hain with h1 | h1
            · exact h1
            · have hba : b.id ≤ a.id := hs2c.1 a h1
              have hbin : b ∈ a :: t1 := hp.symm.mem_iff.mp (List.mem_cons_self b t2)
              rcases List.mem_cons.mp hbin with h2 | h2
              · exact h2.symm
              · have hab2 : a.id ≤ b.id := hs1c.1 b h2
                exfalso
                apply hndc.1
                rw [Nat.le_antisymm hab2 hba]
                exact List.mem_map_of_mem PlateRow.id h2
          subst hab
          have ht : t1.Perm t2 := hp.cons_inv
          rw [ih ht hs1c.2 hs2c.2 hndc.2]

/-- Claim C6: the Snapshot Hasher canonicalizes by sorting rules by rule
id before hashing, so any two storage orderings of the same rule set
(rule ids being unique, as the primary key guarantees) receive an
identical fingerprint. -/
theorem fingerprint_perm_invariant (l1 l2 : List PlateRow)
    (hperm : l1.Perm l2) (hnd : (l1.map PlateRow.id).Nodup) :
    fingerprint l1 = fingerprint l2 := by
  have hsorted : sortById l1 = sortById l2 := by
    apply sorted_nodup_eq
    · exact (List.perm_insertionSort idLe l1).trans
        (hperm.trans (List.perm_insertionSort idLe l2).symm)
    · exact List.sorted_insertionSort idLe l1
    · exact List.sorted_insertionSort idLe l2
    · have hpm : List.Perm ((sortById l1).map PlateRow.id) (l1.map PlateRow.id) :=
        (List.perm_insertionSort idLe l1).map PlateRow.id
      exact (List.Perm.nodup_iff hpm).mpr hnd
  unfold fingerprint
  rw [hsorted]

/-- Claim C6, witness: swapping the two rules of a concrete snapshot
leaves the fingerprint unchanged. -/
theorem fingerprint_perm_invariant_witness :
    ([rowAllowABC, rowVisitorXYZ].Perm [rowVisitorXYZ, rowAllowABC]) ∧
    ([rowAllowABC, rowVisitorXYZ].map PlateRow.id).Nodup ∧
    fingerprint [rowAllowABC, rowVisitorXYZ] = fingerprint [rowVisitorXYZ, rowAllowABC] := by
  refine ⟨List.Perm.swap rowVisitorXYZ rowAllowABC [], by decide, ?_⟩
  exact fingerprint_perm_invariant _ _
    (List.Perm.swap rowVisitorXYZ rowAllowABC []) (by decide)

/-! ### Claim C8: Decision Pipeline idempotence -/

/-- The empty pipeline state of a fresh deployment. -/
def emptyPipeline : PipelineState := ⟨[], [], []⟩

/-- A concrete detection event from device 33, delivery id 500. -/
def ev0 : DetectionEvent := ⟨33, 500, plateABC, 95, inst0⟩

theorem processDetection_of_mem (snap : List PlateRow) (th : Nat)
    (st : PipelineState) (ev : DetectionEvent)
    (h : dedupKey ev ∈ st.dedupKeys) :
    processDetection snap th st ev = st := by
  unfold processDetection
  rw [if_pos h]

/-- Claim C8: the pipeline is idempotent under at-least-once delivery —
re-submitting a detection with an already seen dedup key (device id plus
upstream event id) leaves the pipeline state unchanged, so a detection
arriving twice produces exactly one Decision Record and at most one
actuation request. -/
theorem pipeline_idempotent (snap : List PlateRow) (th : Nat)
    (st : PipelineState) (ev : DetectionEvent)
    (hk : dedupKey ev ∉ st.dedupKeys)
    (hr : recordsFor st (dedupKey ev) = 0)
    (ha : actuationsFor st (dedupKey ev) = 0) :
    processDetection snap th (processDetection snap th st ev) ev =
      processDetection snap th st ev ∧
    recordsFor (processDetection snap th (processDetection snap th st ev) ev)
      (dedupKey ev) = 1 ∧
    actuationsFor (processDetection snap th (processDetection snap th st ev) ev)
      (dedupKey ev) ≤ 1 := by
  have hmem : dedupKey ev ∈ (processDetection snap th st ev).dedupKeys := by
    unfold processDetection
    rw [if_neg hk]
    exact List.mem_cons_self _ _
  have hidem := processDetection_of_mem snap th (processDetection snap th st ev) ev hmem
  refine ⟨hidem, ?_, ?_⟩
  · rw [hidem]
    unfold processDetection
    rw [if_neg hk]
    unfold recordsFor at hr ⊢
    simp only [List.filter_cons]
    rw [if_pos (by unfold dedupKey; exact decide_eq_true rfl)]
    simp only [List.length_cons, hr]
  · rw [hidem]
    unfold processDetection
    rw [if_neg hk]
    unfold actuationsFor at ha ⊢
    by_cases hg : (evaluate ev.plateText snap ev.instant ev.confidence th).decision =
        Decision.granted
    · rw [if_pos hg]
      simp only [List.filter_cons]
      rw [if_pos (by unfold dedupKey; exact decide_eq_true rfl)]
      simp only [List.length_cons, ha]
      exact Nat.le_refl 1
    · rw [if_neg hg]
      simp only [ha]
      exact Nat.zero_le 1

/-- Claim C8, witness: Scenario E — the same detection submitted twice
against a fresh pipeline leaves exactly one Decision Record and at most
one actuation request. -/
theorem pipeline_idempotent_witness :
    (dedupKey ev0 ∉ emptyPipeline.dedupKeys ∧
      recordsFor emptyPipeline (dedupKey ev0) = 0 ∧
      actuationsFor emptyPipeline (dedupKey ev0) = 0) ∧
    (processDetection [rowAllowABC] 80 (processDetection [rowAllowABC] 80 emptyPipeline ev0) ev0 =
        processDetection [rowAllowABC] 80 emptyPipeline ev0 ∧
      recordsFor (processDetection [rowAllowABC] 80
        (processDetection [rowAllowABC] 80 emptyPipeline ev0) ev0) (dedupKey ev0) = 1 ∧
      actuationsFor (processDetection [rowAllowABC] 80
        (processDetection [rowAllowABC] 80 emptyPipeline ev0) ev0) (dedupKey ev0) ≤ 1) :=
  ⟨⟨by decide, rfl, rfl⟩,
   pipeline_idempotent [rowAllowABC] 80 emptyPipeline ev0 (by decide) rfl rfl⟩

/-! ### Claim C10: the portal ApiClient fetch wrapper
(second document of src/steinmax-vision-2/edge/setup.sh, the api client
of the portal). -/

/-- JSON values, as produced by `response.json()`. -/
inductive Json
  | null
  | bool (b : Bool)
  | num (n : Int)
  | str (s : String)
  | arr (xs : List Json)
  | obj (fields : List (String × Json))

def lookupField : List (String × Json) → String → Option Json
  | [], _ => none
  | (k2, v) :: rest, k => if k2 = k then some v else lookupField rest k

/-- An error thrown by the client code: `thrown` is `new Error(message)`
as built in the non-ok branch; `typeError` is the TypeError raised by a
property access on null; `syntaxError` is the rejection of
`response.json()` on a body that is not valid JSON. -/
inductive JsError
  | thrown (message : String)
  | typeError
  | syntaxError
deriving DecidableEq, Repr

/-- JavaScript property access `x.detail`: throws a TypeError on null,
looks the field up on an object (absent field is undefined, `none`), and
is undefined on every other value (primitives are boxed, so they do not
throw). `undefined` cannot occur here since `response.json()` never
resolves to it. -/
def Json.getField : Json → String → Except JsError (Option Json)
  | Json.null, _ => Except.error JsError.typeError
  | Json.obj fields, k => Except.ok (lookupField fields k)
  | _, _ => Except.ok none

/-- JavaScript truthiness of a JSON value, as tested by
`error.detail || ...`. -/
def jsTruthy : Json → Bool
  | Json.null => false
  | Json.bool b => b
  | Json.num n => decide (n ≠ 0)
  | Json.str s => decide (s ≠ "")
  | Json.arr _ => true
  | Json.obj _ => true

mutual

/-- JavaScript string coercion of a JSON value, as applied by
`new Error(message)`. -/
def jsErrString : Json → String
  | Json.null => "null"
  | Json.bool true => "true"
  | Json.bool false => "false"
  | Json.num n => toString n
  | Json.str s => s
  | Json.arr xs => jsErrStringList xs
  | Json.obj _ => "[object Object]"

def jsErrStringList : List Json → String
  | [] => ""
  | [x] => jsErrString x
  | x :: y :: rest => jsErrString x ++ "," ++ jsErrStringList (y :: rest)

end

/-- An HTTP response as seen by the client: ok flag, status code, and
the parse of its body (`none` when the body is not valid JSON, in which
case `response.json()` rejects). -/
structure HttpResponse where
  ok : Bool
  status : Nat
  jsonBody : Option Json

/-- Embedding of the private `ApiClient.fetch` wrapper: on an ok
response return the parsed body (the json() rejection on an unparseable
ok body propagates as a thrown SyntaxError); on a non-ok response parse
the body, falling back to the literal object with detail "Unknown error"
when parsing fails, then access `error.detail` — which throws a
TypeError when the body parsed to null — and otherwise throw an Error
whose message is the detail when truthy and "HTTP status" if not.
Thrown errors are modelled as `Except.error`. -/
def apiFetch (r : HttpResponse) : Except JsError Json :=
  if r.ok = true then
    match r.jsonBody with
    | some j => Except.ok j
    | none => Except.error JsError.syntaxError
  else
    match (r.jsonBody.getD (Json.obj [("detail", Json.str "Unknown error")])).getField "detail" with
    | Except.error e => Except.error e
    | Except.ok (some d) =>
        if jsTruthy d = true then Except.error (JsError.thrown (jsErrString d))
        else Except.error (JsError.thrown ("HTTP " ++ toString r.status))
    | Except.ok none => Except.error (JsError.thrown ("HTTP " ++ toString r.status))

/-- The error derived from the detail access on a parsed error body:
the TypeError of a null body propagates; a truthy detail gives its
string coercion as the Error message; anything else gives "HTTP status". -/
def detailOutcome (gd : Except JsError (Option Json)) (status : Nat) : JsError :=
  match gd with
  | Except.error e => e
  | Except.ok (some d) =>
      if jsTruthy d = true then JsError.thrown (jsErrString d)
      else JsError.thrown ("HTTP " ++ toString status)
  | Except.ok none => JsError.thrown ("HTTP " ++ toString status)

/-- The error a non-ok response actually produces: an Error with the
detail field when the body parses as JSON with a truthy detail; a
TypeError when the body parses to null; an Error "HTTP status" when it
parses to anything else without a truthy detail; and an Error
"Unknown error" when the body fails to parse (the catch fallback). -/
def errorResult (r : HttpResponse) : JsError :=
  match r.jsonBody with
  | none => JsError.thrown "Unknown error"
  | some b => detailOutcome (b.getField "detail") r.status

/-- A non-ok response whose body is not valid JSON. -/
def rParseFail : HttpResponse := ⟨false, 500, none⟩

/-- A non-ok response carrying a JSON body with a detail field. -/
def rDetail : HttpResponse :=
  ⟨false, 404, some (Json.obj [("detail", Json.str "Not found")])⟩

/-- A non-ok response whose body is the valid JSON text null. -/
def rNullBody : HttpResponse := ⟨false, 500, some Json.null⟩

/-- Claim C10, counterexample: for a non-ok response whose body does not
parse as JSON, the thrown Error carries "Unknown error" (from the
`.catch` fallback object), not "HTTP 500" as the claim states; and a
non-ok response whose body parses to JSON null throws a TypeError, not
an Error at all. -/
theorem apiFetch_message_counterexample :
    apiFetch rParseFail = Except.error (JsError.thrown "Unknown error") ∧
    ("HTTP " ++ toString rParseFail.status) = "HTTP 500" ∧
    apiFetch rParseFail ≠ Except.error (JsError.thrown "HTTP 500") ∧
    apiFetch rNullBody = Except.error JsError.typeError := by
  refine ⟨rfl, rfl, ?_, rfl⟩
  intro h
  have h2 : JsError.thrown "Unknown error" = JsError.thrown "HTTP 500" :=
    Except.error.inj h
  have h3 : ("Unknown error" : String) = "HTTP 500" := JsError.thrown.inj h2
  exact absurd h3 (by decide)

theorem nonOkBranch_ne_ok (gd : Except JsError (Option Json)) (status : Nat) (j : Json) :
    (match gd with
     | Except.error e => Except.error e
     | Except.ok (some d) =>
         if jsTruthy d = true then Except.error (JsError.thrown (jsErrString d))
         else Except.error (JsError.thrown ("HTTP " ++ toString status))
     | Except.ok none => Except.error (JsError.thrown ("HTTP " ++ toString status)))
      ≠ Except.ok j := by
  cases gd with
  | error e => exact fun h => Except.noConfusion h
  | ok o =>
      cases o with
      | none => exact fun h => Except.noConfusion h
      | some d =>
          show (if jsTruthy d = true then Except.error (JsError.thrown (jsErrString d))
                else Except.error (JsError.thrown ("HTTP " ++ toString status)))
              ≠ Except.ok j
          by_cases ht : jsTruthy d = true
          · rw [if_pos ht]
            exact fun h => Except.noConfusion h
          · rw [if_neg ht]
            exact fun h => Except.noConfusion h

theorem nonOkBranch_eq_error (gd : Except JsError (Option Json)) (status : Nat) :
    (match gd with
     | Except.error e => Except.error e
     | Except.ok (some d) =>
         if jsTruthy d = true then Except.error (JsError.thrown (jsErrString d))
         else Except.error (JsError.thrown ("HTTP " ++ toString status))
     | Except.ok none => Except.error (JsError.thrown ("HTTP " ++ toString status))) =
    (Except.error (detailOutcome gd status) : Except JsError Json) := by
  cases gd with
  | error e => rfl
  | ok o =>
      cases o with
      | none => rfl
      | some d =>
          show (if jsTruthy d = true then Except.error (JsError.thrown (jsErrString d))
                else Except.error (JsError.thrown ("HTTP " ++ toString status))) =
              (Except.error (if jsTruthy d = true then JsError.thrown (jsErrString d)
                else JsError.thrown ("HTTP " ++ toString status)) : Except JsError Json)
          by_cases ht : jsTruthy d = true
          · rw [if_pos ht, if_pos ht]
          · rw [if_neg ht, if_neg ht]

/-- Claim C10 amended: every ApiClient request either returns the parsed
JSON body of an ok response or throws — a non-ok response is never
returned as a success, and what it throws is an Error with the body
detail field when the body parses as JSON with a truthy detail, a
TypeError when the body parses to null, an Error "HTTP status" when it
parses to anything else without a truthy detail, and an Error
"Unknown error" when the body fails to parse. -/
theorem apiFetch_behavior (r : HttpResponse) :
    (∀ j : Json, apiFetch r = Except.ok j ↔ (r.ok = true ∧ r.jsonBody = some j)) ∧
    (r.ok = false → apiFetch r = Except.error (errorResult r)) := by
  by_cases hok : r.ok = true
  · constructor
    · intro j
      unfold apiFetch
      rw [if_pos hok]
      cases hb : r.jsonBody with
      | none =>
          apply iff_of_false
          · exact fun h => Except.noConfusion h
          · exact fun hc => Option.noConfusion hc.2
      | some b =>
          constructor
          · intro h
            exact ⟨hok, by rw [Except.ok.inj h]⟩
          · intro hc
            rw [Option.some.inj hc.2]
    · intro hf
      rw [hok] at hf
      exact absurd hf (by decide)
  · have hokf : r.ok = false := by
      cases hv : r.ok
      · rfl
      · exact absurd hv hok
    constructor
    · intro j
      unfold apiFetch
      rw [if_neg hok]
      apply iff_of_false
      · exact nonOkBranch_ne_ok _ _ j
      · intro hc
        rw [hokf] at hc
        exact Bool.false_ne_true hc.1
    · intro _
      unfold apiFetch errorResult
      rw [if_neg hok]
      cases hb : r.jsonBody with
      | none => rfl
      | some b =>
          rw [Option.getD_some]
          exact nonOkBranch_eq_error (b.getField "detail") r.status

/-- Claim C10 amended, witness: a 404 response with a detail field
throws an Error with the detail text, and a 500 response whose body is
JSON null throws a TypeError; neither returns success. -/
theorem apiFetch_behavior_witness :
    rDetail.ok = false ∧
    apiFetch rDetail = Except.error (JsError.thrown "Not found") ∧
    rNullBody.ok = false ∧
    apiFetch rNullBody = Except.error JsError.typeError :=
  ⟨rfl, (apiFetch_behavior rDetail).2 rfl, rfl, (apiFetch_behavior rNullBody).2 rfl⟩

end Vision
